import Mathlib

/-!
Shallow embedding of `app/src/main-process/squirrel-updater.ts`.

The module reacts to Squirrel.Windows lifecycle events.  Every operation of
the source is modelled as a pure function from an environment describing the
outside world (executable path, environment variables, filesystem answers,
spawn outcomes) to a result `Except Err α` paired with the ordered trace of
observable effects the operation performs.  Sequencing with early exit on
error mirrors the `await` chains of the source.
-/

namespace SquirrelUpdater

/-- An observable side effect performed by the module. -/
inductive Effect
  /-- `ChildProcess.spawn(command, args)` was invoked. -/
  | spawned (command : String) (args : List String)
  /-- `Fs.ensureDir(path)` was invoked. -/
  | ensuredDir (path : String)
  /-- `Fs.writeFile(path, content)` was invoked. -/
  | wroteFile (path : String) (content : String)
  /-- `Fs.exists(path)` was invoked (a read-only check). -/
  | checkedExists (path : String)
  deriving DecidableEq, Repr

/-- Outcome of trying to start an external process: either the OS fails to
start it at all (covering both the synchronous throw of
`ChildProcess.spawn` and the asynchronous `error` event, which the source
treats identically by rejecting with the underlying error), or the process
runs to completion with an exit code and captured stdout. -/
inductive SpawnOutcome
  | startError (msg : String)
  | exited (code : Int) (stdout : String)
  deriving DecidableEq, Repr

/-- Errors with which an operation of the module can reject: the raw OS
error from a failed process start, the `Command failed: ...` error carrying
the captured stdout (source line 193), or a raw filesystem error. -/
inductive Err
  | osError (msg : String)
  | commandFailed (capturedOutput : String)
  | fsError (msg : String)
  deriving DecidableEq, Repr

/-- The outside world as the module observes it. -/
structure Env where
  /-- `process.execPath`: absolute path of the running executable. -/
  execPath : String
  /-- `process.env.SystemRoot` (`none` when unset or empty, i.e. falsy). -/
  systemRoot : Option String
  /-- `Os.homedir()`; the source tests its truthiness, so the empty string
  models "home directory cannot be determined". -/
  homedir : String
  /-- Answer of the `Fs.exists` check for the desktop shortcut file. -/
  desktopShortcutExists : Bool
  /-- Result of `Fs.ensureDir` on the bin directory: `some msg` is an error. -/
  ensureDirResult : Option String
  /-- Result of `Fs.writeFile` on the trampoline: `some msg` is an error. -/
  writeFileResult : Option String
  /-- Outcome of spawning a given command with given arguments. -/
  spawnOutcome : String → List String → SpawnOutcome

/-- A result paired with the ordered trace of effects performed. -/
abbrev Res (α : Type) := Except Err α × List Effect

/-- Models Node's `Path.resolve(p, '..')` on an already-normalized absolute
Windows path: strip the last backslash-separated component.  No claim
depends on path arithmetic beyond this shape. -/
def parentDir (p : String) : String :=
  match (p.toList.reverse.dropWhile (fun c => c ≠ '\\')) with
  | [] => p
  | _ :: rest => String.mk rest.reverse

/-- Models Node's `Path.join(a, b)` for plain components. -/
def joinP (a b : String) : String := a ++ "\\" ++ b

/-- Models Node's `Path.basename(p)`: the last backslash-separated
component. -/
def lastComponent (p : String) : String :=
  String.mk (p.toList.reverse.takeWhile (fun c => c ≠ '\\')).reverse

/-- Models Node's `Path.relative(f, t)` in the one shape the source uses
(`f = d\x`, `t = d\y\...` for a common ancestor `d`): step up once and
descend into the part of `t` below `d`.  No claim depends on its value. -/
def relativeP (f t : String) : String :=
  let base := parentDir f ++ "\\"
  if t.toList.take base.toList.length = base.toList then
    ".." ++ "\\" ++ String.mk (t.toList.drop base.toList.length)
  else t

/-- `spawn` (source lines 180-209): start the command, capture stdout,
resolve with it on exit code 0, reject with `Command failed` carrying the
captured output on a non-zero code, and reject with the raw OS error when
the process cannot be started at all. -/
def spawn (env : Env) (command : String) (args : List String) :
    Res String :=
  match env.spawnOutcome command args with
  | .startError msg => (.error (.osError msg), [.spawned command args])
  | .exited code stdout =>
      if code = 0 then
        (.ok stdout, [.spawned command args])
      else
        (.error (.commandFailed stdout), [.spawned command args])

/-- `getBinPath` (lines 43-47): the version-independent `bin` directory two
levels above the executable. -/
def getBinPath (env : Env) : String :=
  let appFolder := parentDir env.execPath
  let rootAppDir := parentDir appFolder
  joinP rootAppDir "bin"

/-- The trampoline content of `writeCLITrampoline` (line 64). -/
def trampolineContent (env : Env) : String :=
  let binPath := getBinPath env
  let appFolder := parentDir env.execPath
  let versionedPath :=
    relativeP binPath
      (joinP (joinP (joinP (joinP appFolder "resources") "app") "static") "github.bat")
  "@echo off\n\"%~dp0\\" ++ versionedPath ++ "\" %*"

/-- `writeCLITrampoline` (lines 60-82): ensure the bin directory exists,
write the trampoline file, return the bin directory path; reject with the
filesystem error when either step fails. -/
def writeCLITrampoline (env : Env) : Res String :=
  let binPath := getBinPath env
  let trampolinePath := joinP binPath "github.bat"
  match env.ensureDirResult with
  | some msg => (.error (.fsError msg), [.ensuredDir binPath])
  | none =>
      match env.writeFileResult with
      | some msg =>
          (.error (.fsError msg),
           [.ensuredDir binPath, .wroteFile trampolinePath (trampolineContent env)])
      | none =>
          (.ok binPath,
           [.ensuredDir binPath, .wroteFile trampolinePath (trampolineContent env)])

/-- The `Update.exe` path of `spawnSquirrelUpdate` (lines 86-88). -/
def updateDotExe (env : Env) : String :=
  let appFolder := parentDir env.execPath
  let rootAppDir := parentDir appFolder
  joinP rootAppDir "Update.exe"

/-- `spawnSquirrelUpdate` (lines 85-92): run `Update.exe <command> <exeName>`. -/
def spawnSquirrelUpdate (env : Env) (command : String) : Res Unit :=
  match spawn env (updateDotExe env) [command, lastComponent env.execPath] with
  | (.ok _, tr) => (.ok (), tr)
  | (.error e, tr) => (.error e, tr)

/-- `createShortcut` (lines 94-96). -/
def createShortcut (env : Env) : Res Unit :=
  spawnSquirrelUpdate env "--createShortcut"

/-- `removeShortcut` (lines 107-109). -/
def removeShortcut (env : Env) : Res Unit :=
  spawnSquirrelUpdate env "--removeShortcut"

/-- The desktop shortcut path of `updateShortcut` (line 114). -/
def desktopShortcutPath (env : Env) : String :=
  joinP (joinP env.homedir "Desktop") "GitHub Desktop.lnk"

/-- `updateShortcut` (lines 111-129): when the home directory is known,
check whether the desktop shortcut exists and refresh it only if it does;
when the home directory is unknown, create the shortcut unconditionally. -/
def updateShortcut (env : Env) : Res Unit :=
  if env.homedir ≠ "" then
    if env.desktopShortcutExists then
      ((createShortcut env).1,
       .checkedExists (desktopShortcutPath env) :: (createShortcut env).2)
    else
      (.ok (), [.checkedExists (desktopShortcutPath env)])
  else
    createShortcut env

/-- Trim of `stdout.replace(/^\s+|\s+$/g, '')` (line 159) on the character
list: drop whitespace from both ends. -/
def trimChars (l : List Char) : List Char :=
  ((l.dropWhile Char.isWhitespace).reverse.dropWhile Char.isWhitespace).reverse

/-- The parsing step of `getPathSegments` (lines 159-163): trim surrounding
whitespace, split on runs of semicolons, drop empty segments.  Splitting on
each single `;` and then filtering out the empty fields is extensionally
the same as splitting on `/;+/` and filtering. -/
def parsePathOutput (stdout : String) : List String :=
  (((trimChars stdout.toList).splitOn ';').map (fun cs => String.mk cs)).filter
    (fun seg => seg ≠ "")

/-- The powershell location of `getPathSegments` (lines 133-140). -/
def powershellPath (env : Env) : String :=
  match env.systemRoot with
  | some sr =>
      joinP (joinP (joinP (joinP sr "System32") "WindowsPowerShell") "v1.0") "powershell.exe"
  | none => "powershell.exe"

/-- The powershell argument list of `getPathSegments` (lines 142-156). -/
def psArgs : List String :=
  [ "-noprofile",
    "-ExecutionPolicy",
    "RemoteSigned",
    "-command",
    "\n      [Console]::OutputEncoding=[System.Text.Encoding]::UTF8\n      $output=[environment]::GetEnvironmentVariable(\x27Path\x27, \x27User\x27)\n      [Console]::WriteLine($output)\n    " ]

/-- `getPathSegments` (lines 132-163): spawn powershell to print the
user-scope `Path` variable and parse its captured stdout. -/
def getPathSegments (env : Env) : Res (List String) :=
  match spawn env (powershellPath env) psArgs with
  | (.ok stdout, tr) => (.ok (parsePathOutput stdout), tr)
  | (.error e, tr) => (.error e, tr)

/-- The setx location of `setPathSegments` (lines 167-174). -/
def setxPath (env : Env) : String :=
  match env.systemRoot with
  | some sr => joinP (joinP sr "System32") "setx.exe"
  | none => "setx.exe"

/-- `paths.join(';')` (line 176) on the character level. -/
def joinPathSegments (paths : List String) : String :=
  String.mk (List.intercalate [';'] (paths.map String.toList))

/-- `setPathSegments` (lines 166-177): spawn `setx.exe Path <joined>`. -/
def setPathSegments (env : Env) (paths : List String) : Res Unit :=
  match spawn env (setxPath env) ["Path", joinPathSegments paths] with
  | (.ok _, tr) => (.ok (), tr)
  | (.error e, tr) => (.error e, tr)

/-- `handleUpdated` (lines 29-37): refresh shortcut, write trampoline, read
the PATH segments, and append the bin path only when absent
(`paths.indexOf(binPath) < 0`). -/
def handleUpdated (env : Env) : Res Unit :=
  match updateShortcut env with
  | (.error e, tr) => (.error e, tr)
  | (.ok _, tr1) =>
      match writeCLITrampoline env with
      | (.error e, tr2) => (.error e, tr1 ++ tr2)
      | (.ok binPath, tr2) =>
          match getPathSegments env with
          | (.error e, tr3) => (.error e, tr1 ++ tr2 ++ tr3)
          | (.ok paths, tr3) =>
              if binPath ∈ paths then
                (.ok (), tr1 ++ tr2 ++ tr3)
              else
                ((setPathSegments env (paths ++ [binPath])).1,
                 tr1 ++ tr2 ++ tr3 ++ (setPathSegments env (paths ++ [binPath])).2)

/-- The pure PATH transformation performed by `handleUpdated` (lines 33-36):
the final segment list after the conditional append. -/
def updatedPathTransform (binPath : String) (paths : List String) : List String :=
  if binPath ∈ paths then paths else paths ++ [binPath]

/-- The pure PATH transformation of `handleUninstall` (line 103):
`paths.filter(p => p !== binPath)`. -/
def uninstallPathTransform (binPath : String) (paths : List String) : List String :=
  paths.filter (fun p => p ≠ binPath)

/-- `handleUninstall` (lines 98-105): remove the shortcut, read the PATH
segments, filter out the bin path, and write the result back
unconditionally. -/
def handleUninstall (env : Env) : Res Unit :=
  match removeShortcut env with
  | (.error e, tr) => (.error e, tr)
  | (.ok _, tr1) =>
      match getPathSegments env with
      | (.error e, tr2) => (.error e, tr1 ++ tr2)
      | (.ok paths, tr2) =>
          ((setPathSegments env (uninstallPathTransform (getBinPath env) paths)).1,
           tr1 ++ tr2 ++ (setPathSegments env (uninstallPathTransform (getBinPath env) paths)).2)

/-- `handleSquirrelEvent` (lines 11-27): dispatch on the event name;
`--squirrel-obsolete` is an already-completed no-op, anything unrecognized
returns `none`. -/
def handleSquirrelEvent (env : Env) (eventName : String) : Option (Res Unit) :=
  if eventName = "--squirrel-install" then some (createShortcut env)
  else if eventName = "--squirrel-updated" then some (handleUpdated env)
  else if eventName = "--squirrel-uninstall" then some (handleUninstall env)
  else if eventName = "--squirrel-obsolete" then some (.ok (), [])
  else none

/-- Recognizer for a spawn of the shortcut-creation verb. -/
def isShortcutCreationCmd : Effect → Bool
  | .spawned _ args => decide (args.head? = some "--createShortcut")
  | _ => false

/-! ### Concrete environments used by the witnesses

Fields in constructor order: `execPath`, `systemRoot`, `homedir`,
`desktopShortcutExists`, `ensureDirResult`, `writeFileResult`,
`spawnOutcome`.  With `execPath = "C:\app-1.0\Desktop.exe"` and no
`SystemRoot`, the derived locations are `getBinPath = "C:\bin"`,
`updateDotExe = "C:\Update.exe"`, `powershellPath = "powershell.exe"` and
`setxPath = "setx.exe"`. -/

/-- Every spawn succeeds with empty output. -/
def envOk : Env :=
  ⟨"C:\\app-1.0\\Desktop.exe", none, "C:\\u", true, none, none,
   fun _ _ => .exited 0 ""⟩

/-- No desktop shortcut; powershell reports a PATH already holding the bin
directory. -/
def envUpd : Env :=
  ⟨"C:\\app-1.0\\Desktop.exe", none, "C:\\u", false, none, none,
   fun cmd _ => if cmd = "powershell.exe" then .exited 0 "C:\\A;C:\\bin" else .exited 0 ""⟩

/-- No desktop shortcut; powershell reports a PATH without the bin
directory. -/
def envUpd2 : Env :=
  ⟨"C:\\app-1.0\\Desktop.exe", none, "C:\\u", false, none, none,
   fun cmd _ => if cmd = "powershell.exe" then .exited 0 "C:\\A" else .exited 0 ""⟩

/-- Powershell reports a PATH holding the bin directory between two other
segments. -/
def envUninst : Env :=
  ⟨"C:\\app-1.0\\Desktop.exe", none, "C:\\u", true, none, none,
   fun cmd _ => if cmd = "powershell.exe" then .exited 0 "C:\\A;C:\\bin;C:\\B" else .exited 0 ""⟩

/-- The home directory cannot be determined. -/
def envNoHome : Env :=
  ⟨"C:\\app-1.0\\Desktop.exe", none, "", true, none, none,
   fun _ _ => .exited 0 ""⟩

/-- Every spawn exits with status 1. -/
def envFail : Env :=
  ⟨"C:\\app-1.0\\Desktop.exe", none, "C:\\u", false, none, none,
   fun _ _ => .exited 1 "boom"⟩

/-- The desktop shortcut exists and every spawn exits with status 1, so the
updated handler's very first spawned command (the shortcut refresh) fails. -/
def envFail2 : Env :=
  ⟨"C:\\app-1.0\\Desktop.exe", none, "C:\\u", true, none, none,
   fun _ _ => .exited 1 "boom"⟩

/-- The shortcut removal and the PATH read succeed but the `setx` PATH
write exits with status 1. -/
def envSetxFail : Env :=
  ⟨"C:\\app-1.0\\Desktop.exe", none, "C:\\u", true, none, none,
   fun cmd _ =>
     if cmd = "setx.exe" then .exited 1 "boom"
     else if cmd = "powershell.exe" then .exited 0 "C:\\A;C:\\bin;C:\\B"
     else .exited 0 ""⟩

/-! ### Helper lemmas -/

theorem mk_toList (s : String) : String.mk s.toList = s := rfl

theorem intercalate_single (sep : List Char) (x : List Char) :
    List.intercalate sep [x] = x := by
  simp [List.intercalate]

theorem intercalate_cons₂ (sep : List Char) (x y : List Char) (zs : List (List Char)) :
    List.intercalate sep (x :: y :: zs) = x ++ sep ++ List.intercalate sep (y :: zs) := by
  simp [List.intercalate]

theorem head?_intercalate (s : List Char) (rest : List (List Char)) (hs : s ≠ []) :
    (List.intercalate [';'] (s :: rest)).head? = s.head? := by
  cases rest with
  | nil => rw [intercalate_single]
  | cons y zs =>
      rw [intercalate_cons₂]
      cases s with
      | nil => exact absurd rfl hs
      | cons c cs => simp

theorem intercalate_ne_nil (s : List Char) (rest : List (List Char)) (hs : s ≠ []) :
    List.intercalate [';'] (s :: rest) ≠ [] := by
  intro h
  have hh := head?_intercalate s rest hs
  rw [h] at hh
  cases s with
  | nil => exact hs rfl
  | cons c cs => simp at hh

/-- The last character of a semicolon-joined list of non-empty segments is
the last character of one of the segments. -/
theorem getLast?_intercalate_mem (s : List Char) (rest : List (List Char))
    (hne : ∀ l ∈ s :: rest, l ≠ []) :
    ∃ t ∈ s :: rest, (List.intercalate [';'] (s :: rest)).getLast? = t.getLast? := by
  induction rest generalizing s with
  | nil => exact ⟨s, by simp, by rw [intercalate_single]⟩
  | cons y zs ih =>
      obtain ⟨t, htmem, ht⟩ := ih y (fun l hl => hne l (List.mem_cons_of_mem s hl))
      refine ⟨t, List.mem_cons_of_mem s htmem, ?_⟩
      have hI : List.intercalate [';'] (y :: zs) ≠ [] :=
        intercalate_ne_nil y zs (hne y (by simp))
      rw [intercalate_cons₂, List.append_assoc, List.getLast?_append, List.getLast?_append, ht]
      cases ht2 : t.getLast? with
      | none =>
          rw [ht2] at ht
          exact absurd (List.getLast?_eq_none_iff.mp ht) hI
      | some c => simp

theorem dropWhile_eq_self_of_head (p : Char → Bool) (l : List Char)
    (h : ∀ c, l.head? = some c → p c = false) :
    l.dropWhile p = l := by
  cases l with
  | nil => rfl
  | cons a as => rw [List.dropWhile_cons, h a rfl]; simp

theorem trimChars_eq_self (l : List Char)
    (hh : ∀ c, l.head? = some c → ¬ c.isWhitespace)
    (hl : ∀ c, l.getLast? = some c → ¬ c.isWhitespace) :
    trimChars l = l := by
  unfold trimChars
  rw [dropWhile_eq_self_of_head _ l (fun c hc => by simpa using hh c hc),
      dropWhile_eq_self_of_head _ l.reverse
        (fun c hc => by rw [List.head?_reverse] at hc; simpa using hl c hc),
      List.reverse_reverse]

/-- The trace of `createShortcut` is the single `Update.exe` spawn,
whatever its outcome. -/
theorem createShortcut_trace (env : Env) :
    (createShortcut env).2 =
      [.spawned (updateDotExe env) ["--createShortcut", lastComponent env.execPath]] := by
  unfold createShortcut spawnSquirrelUpdate spawn
  rcases env.spawnOutcome (updateDotExe env) ["--createShortcut", lastComponent env.execPath] with
    msg | ⟨code, stdout⟩
  · rfl
  · by_cases h : code = 0 <;> simp [h]

/-- Filtering out one distinguished string keeps the total length balance
with its number of occurrences. -/
theorem length_filter_ne_add_count (binPath : String) (paths : List String) :
    (paths.filter (fun p => p ≠ binPath)).length + paths.count binPath = paths.length := by
  induction paths with
  | nil => rfl
  | cons a t ih =>
      by_cases h : a = binPath
      · subst h
        simp only [List.filter_cons, List.count_cons]
        simp at ih ⊢
        omega
      · simp only [List.filter_cons, List.count_cons]
        simp [h] at ih ⊢
        omega

/-! ### Claim theorems -/

/-- C1 (counterexample): the uninstall PATH transformation does not remove
exactly one occurrence of the bin directory.  On the segment list
`["C:\bin", "C:\bin"]` with bin dir `C:\bin` it removes both occurrences,
so the count of the bin directory in the result is `0`, not the
`count - 1 = 1` that removing exactly one occurrence would leave. -/
theorem uninstall_exactly_one_counterexample :
    uninstallPathTransform "C:\\bin" ["C:\\bin", "C:\\bin"] = [] ∧
    ¬ ((uninstallPathTransform "C:\\bin" ["C:\\bin", "C:\\bin"]).count "C:\\bin" =
        (["C:\\bin", "C:\\bin"] : List String).count "C:\\bin" - 1) := by
  constructor
  · rfl
  · decide

/-- C1 (amended): the uninstall handler's PATH transformation removes every
occurrence of the bin directory (hence exactly one occurrence when the list
holds exactly one) and leaves all other segments and their relative order
unchanged; from `["C:\A", "C:\bin", "C:\B"]` with bin dir `C:\bin` it
produces `["C:\A", "C:\B"]`; and the handler writes the transformed list
back to the PATH. -/
theorem uninstall_removes_every_occurrence (binPath : String) (paths : List String)
    (env : Env) (stdout out1 out2 : String)
    (hrm : env.spawnOutcome (updateDotExe env) ["--removeShortcut", lastComponent env.execPath]
      = .exited 0 out1)
    (hps : env.spawnOutcome (powershellPath env) psArgs = .exited 0 stdout)
    (hsx : env.spawnOutcome (setxPath env)
        ["Path", joinPathSegments (uninstallPathTransform (getBinPath env) (parsePathOutput stdout))]
      = .exited 0 out2) :
    binPath ∉ uninstallPathTransform binPath paths ∧
    (uninstallPathTransform binPath paths).Sublist paths ∧
    (∀ q, q ≠ binPath →
      (uninstallPathTransform binPath paths).count q = paths.count q) ∧
    (paths.count binPath = 1 →
      (uninstallPathTransform binPath paths).length + 1 = paths.length) ∧
    uninstallPathTransform "C:\\bin" ["C:\\A", "C:\\bin", "C:\\B"] = ["C:\\A", "C:\\B"] ∧
    handleUninstall env = (.ok (),
      [ .spawned (updateDotExe env) ["--removeShortcut", lastComponent env.execPath],
        .spawned (powershellPath env) psArgs,
        .spawned (setxPath env)
          ["Path",
           joinPathSegments (uninstallPathTransform (getBinPath env) (parsePathOutput stdout))] ]) := by
  refine ⟨?_, ?_, ?_, ?_, by decide, ?_⟩
  · simp [uninstallPathTransform, List.mem_filter]
  · exact List.filter_sublist paths
  · intro q hq
    exact List.count_filter (by simpa using hq)
  · intro hcount
    have := length_filter_ne_add_count binPath paths
    unfold uninstallPathTransform
    omega
  · unfold handleUninstall removeShortcut spawnSquirrelUpdate getPathSegments setPathSegments spawn
    rw [hrm, hps]
    simp [hsx]

/-- C1 (witness): instantiation of the amended theorem in the environment
`envUninst`, whose PATH read yields `["C:\A", "C:\bin", "C:\B"]`. -/
theorem uninstall_removes_every_occurrence_witness :
    handleUninstall envUninst = (.ok (),
      [ .spawned (updateDotExe envUninst) ["--removeShortcut", lastComponent envUninst.execPath],
        .spawned (powershellPath envUninst) psArgs,
        .spawned (setxPath envUninst)
          ["Path",
           joinPathSegments
             (uninstallPathTransform (getBinPath envUninst)
               (parsePathOutput "C:\\A;C:\\bin;C:\\B"))] ]) :=
  (uninstall_removes_every_occurrence "C:\\bin" ["C:\\A", "C:\\bin", "C:\\B"]
    envUninst "C:\\A;C:\\bin;C:\\B" "" ""
    (by decide) (by decide) (by decide)).2.2.2.2.2

/-- C2: the updated handler's PATH transformation is idempotent (applying
it twice gives the same segment list as applying it once), and when the bin
directory is already present among the read segments the handler performs
no PATH write: its trace holds no `setx` spawn, only the shortcut check,
the trampoline write and the PATH read. -/
theorem updated_idempotent_no_write_when_present (binPath : String) (paths : List String)
    (env : Env) (stdout : String)
    (hhome : env.homedir ≠ "") (hsc : env.desktopShortcutExists = false)
    (hed : env.ensureDirResult = none) (hwf : env.writeFileResult = none)
    (hps : env.spawnOutcome (powershellPath env) psArgs = .exited 0 stdout)
    (hmem : getBinPath env ∈ parsePathOutput stdout) :
    updatedPathTransform binPath (updatedPathTransform binPath paths) =
      updatedPathTransform binPath paths ∧
    handleUpdated env = (.ok (),
      [ .checkedExists (desktopShortcutPath env),
        .ensuredDir (getBinPath env),
        .wroteFile (joinP (getBinPath env) "github.bat") (trampolineContent env),
        .spawned (powershellPath env) psArgs ]) := by
  constructor
  · unfold updatedPathTransform
    by_cases h : binPath ∈ paths
    · simp [h]
    · simp [h]
  · unfold handleUpdated updateShortcut writeCLITrampoline getPathSegments spawn
    rw [hed, hwf, hps, if_pos hhome, hsc]
    simp [hmem]

/-- C2 (witness): instantiation in the environment `envUpd`, whose PATH
read yields `["C:\A", "C:\bin"]` with bin dir `C:\bin` already present. -/
theorem updated_idempotent_no_write_when_present_witness :
    updatedPathTransform "C:\\bin" (updatedPathTransform "C:\\bin" ["C:\\A"]) =
      updatedPathTransform "C:\\bin" ["C:\\A"] ∧
    handleUpdated envUpd = (.ok (),
      [ .checkedExists (desktopShortcutPath envUpd),
        .ensuredDir (getBinPath envUpd),
        .wroteFile (joinP (getBinPath envUpd) "github.bat") (trampolineContent envUpd),
        .spawned (powershellPath envUpd) psArgs ]) :=
  updated_idempotent_no_write_when_present "C:\\bin" ["C:\\A"] envUpd "C:\\A;C:\\bin"
    (by decide) (by decide) (by decide) (by decide) (by decide) (by decide)

/-- C3: when the bin directory is absent from the read PATH segments, the
updated handler writes back exactly the original segments in order with the
bin directory appended last (the `setx` spawn receives their semicolon
join); in the concrete environment `envUpd2`, whose PATH read yields
`["C:\A"]` and whose bin dir is `C:\bin`, the written PATH is
`"C:\A;C:\bin"`, i.e. the segments `["C:\A", "C:\bin"]`. -/
theorem updated_appends_bin_when_absent (env : Env) (stdout out2 : String)
    (hhome : env.homedir ≠ "") (hsc : env.desktopShortcutExists = false)
    (hed : env.ensureDirResult = none) (hwf : env.writeFileResult = none)
    (hps : env.spawnOutcome (powershellPath env) psArgs = .exited 0 stdout)
    (hmem : getBinPath env ∉ parsePathOutput stdout)
    (hsx : env.spawnOutcome (setxPath env)
        ["Path", joinPathSegments (parsePathOutput stdout ++ [getBinPath env])]
      = .exited 0 out2) :
    handleUpdated env = (.ok (),
      [ .checkedExists (desktopShortcutPath env),
        .ensuredDir (getBinPath env),
        .wroteFile (joinP (getBinPath env) "github.bat") (trampolineContent env),
        .spawned (powershellPath env) psArgs,
        .spawned (setxPath env)
          ["Path", joinPathSegments (parsePathOutput stdout ++ [getBinPath env])] ]) ∧
    joinPathSegments (parsePathOutput "C:\\A" ++ ["C:\\bin"]) = "C:\\A;C:\\bin" := by
  constructor
  · unfold handleUpdated updateShortcut writeCLITrampoline getPathSegments setPathSegments spawn
    rw [hed, hwf, hps, if_pos hhome, hsc]
    simp [hmem, hsx]
  · decide

/-- C3 (witness): instantiation in the environment `envUpd2`, whose PATH
read yields `["C:\A"]`. -/
theorem updated_appends_bin_when_absent_witness :
    handleUpdated envUpd2 = (.ok (),
      [ .checkedExists (desktopShortcutPath envUpd2),
        .ensuredDir (getBinPath envUpd2),
        .wroteFile (joinP (getBinPath envUpd2) "github.bat") (trampolineContent envUpd2),
        .spawned (powershellPath envUpd2) psArgs,
        .spawned (setxPath envUpd2)
          ["Path", joinPathSegments (parsePathOutput "C:\\A" ++ [getBinPath envUpd2])] ]) :=
  (updated_appends_bin_when_absent envUpd2 "C:\\A" ""
    (by decide) (by decide) (by decide) (by decide) (by decide) (by decide) (by decide)).1

/-- C4: the dispatcher recognizes exactly the four squirrel tokens: every
other event name yields `none` (no work, no effects), and
`--squirrel-obsolete` yields an already-completed operation with an empty
effect trace. -/
theorem dispatcher_recognizes_exactly_four (env : Env) (eventName : String)
    (h1 : eventName ≠ "--squirrel-install") (h2 : eventName ≠ "--squirrel-updated")
    (h3 : eventName ≠ "--squirrel-uninstall") (h4 : eventName ≠ "--squirrel-obsolete") :
    handleSquirrelEvent env eventName = none ∧
    handleSquirrelEvent env "--squirrel-obsolete" = some (.ok (), []) := by
  constructor
  · simp [handleSquirrelEvent, h1, h2, h3, h4]
  · rfl

/-- C4 (witness): instantiation at the unrecognized token `--not-an-event`. -/
theorem dispatcher_recognizes_exactly_four_witness :
    handleSquirrelEvent envOk "--not-an-event" = none ∧
    handleSquirrelEvent envOk "--squirrel-obsolete" = some (.ok (), []) :=
  dispatcher_recognizes_exactly_four envOk "--not-an-event"
    (by decide) (by decide) (by decide) (by decide)

/-- C5: the PATH reader's parse returns only non-empty segments, in the
order they occur in the semicolon-split of the trimmed output (the result
is a sublist of that split), and `" C:\A;;C:\B; "` parses to
`["C:\A", "C:\B"]`. -/
theorem path_parse_nonempty_ordered (stdout : String) :
    (∀ seg ∈ parsePathOutput stdout, seg ≠ "") ∧
    (parsePathOutput stdout).Sublist
      (((trimChars stdout.toList).splitOn ';').map (fun cs => String.mk cs)) ∧
    parsePathOutput " C:\\A;;C:\\B; " = ["C:\\A", "C:\\B"] := by
  refine ⟨?_, List.filter_sublist _, by decide⟩
  intro seg h
  simpa using (List.mem_filter.mp h).2

/-- C5 (witness): instantiation at the spec's example output. -/
theorem path_parse_nonempty_ordered_witness :
    ("C:\\A" : String) ∈ parsePathOutput " C:\\A;;C:\\B; " ∧ ("C:\\A" : String) ≠ "" :=
  ⟨by decide, (path_parse_nonempty_ordered " C:\\A;;C:\\B; ").1 "C:\\A" (by decide)⟩

/-- C6: the spawner resolves with the captured stdout exactly when the
process exits with status 0; a non-zero exit rejects with the
`commandFailed` error carrying the captured output; a failure to start the
process rejects with the underlying OS error instead. -/
theorem spawn_resolves_iff_exit_zero (env : Env) (command : String) (args : List String) :
    ((∃ out, (spawn env command args).1 = .ok out) ↔
      (∃ out, env.spawnOutcome command args = .exited 0 out)) ∧
    (∀ out, env.spawnOutcome command args = .exited 0 out →
      spawn env command args = (.ok out, [.spawned command args])) ∧
    (∀ code out, code ≠ 0 → env.spawnOutcome command args = .exited code out →
      spawn env command args = (.error (.commandFailed out), [.spawned command args])) ∧
    (∀ msg, env.spawnOutcome command args = .startError msg →
      spawn env command args = (.error (.osError msg), [.spawned command args])) := by
  rcases hsp : env.spawnOutcome command args with msg | ⟨code, s⟩
  · refine ⟨by simp [spawn, hsp], ?_, ?_, ?_⟩
    · intro out h
      cases h
    · intro code out hc h
      cases h
    · intro msg2 h
      cases h
      simp [spawn, hsp]
  · by_cases hc : code = 0
    · subst hc
      refine ⟨by simp [spawn, hsp], ?_, ?_, ?_⟩
      · intro out h
        cases h
        simp [spawn, hsp]
      · intro code2 out hc2 h
        cases h
        exact absurd rfl hc2
      · intro msg h
        cases h
    · refine ⟨by simp [spawn, hsp, hc], ?_, ?_, ?_⟩
      · intro out h
        cases h
        exact absurd rfl hc
      · intro code2 out hc2 h
        cases h
        simp [spawn, hsp, hc]
      · intro msg h
        cases h

/-- C6 (witness): in `envOk` every process exits 0 with empty output, so
the spawner resolves with the captured text. -/
theorem spawn_resolves_iff_exit_zero_witness :
    spawn envOk "cmd" [] = (.ok "", [.spawned "cmd" []]) :=
  (spawn_resolves_iff_exit_zero envOk "cmd" []).2.1 "" rfl

/-- C7: `updateShortcut` spawns no shortcut-creation command when the
desktop shortcut is absent (and the home directory is known), exactly one
when it is present, and exactly one, unconditionally, when the home
directory cannot be determined. -/
theorem update_shortcut_spawn_counts (env : Env) :
    (env.homedir ≠ "" → env.desktopShortcutExists = false →
      ((updateShortcut env).2.filter isShortcutCreationCmd).length = 0) ∧
    (env.homedir ≠ "" → env.desktopShortcutExists = true →
      ((updateShortcut env).2.filter isShortcutCreationCmd).length = 1) ∧
    (env.homedir = "" →
      ((updateShortcut env).2.filter isShortcutCreationCmd).length = 1) := by
  refine ⟨?_, ?_, ?_⟩
  · intro hh hsc
    simp [updateShortcut, if_pos hh, hsc, isShortcutCreationCmd]
  · intro hh hsc
    unfold updateShortcut
    rw [if_pos hh, hsc, if_pos rfl, createShortcut_trace]
    simp [isShortcutCreationCmd]
  · intro hh
    unfold updateShortcut
    rw [if_neg (by simp [hh]), createShortcut_trace]
    simp [isShortcutCreationCmd]

/-- C7 (witness): in `envNoHome` the home directory is unknown and exactly
one shortcut-creation command is spawned. -/
theorem update_shortcut_spawn_counts_witness :
    ((updateShortcut envNoHome).2.filter isShortcutCreationCmd).length = 1 :=
  (update_shortcut_spawn_counts envNoHome).2.2 rfl

/-- C8: a non-zero exit of a spawned command fails the enclosing handler
and stops it, for every spawn step of every handler.  The conjuncts cover,
with an exact equality pinning the truncated effect trace in each case:
(1) install's single shortcut-creation spawn;
(2) updated's shortcut-refresh spawn when the shortcut exists — no
trampoline directory creation or file write, no PATH read, no PATH write
follows;
(3) updated's shortcut-creation spawn when the home directory is unknown —
likewise nothing follows;
(4) updated's PATH-read spawn, after an arbitrary successful first step —
no PATH write follows;
(5) updated's `setx` PATH-write spawn — the handler fails;
(6) uninstall's shortcut-removal spawn — no PATH read or write follows;
(7) uninstall's PATH-read spawn — no PATH write follows;
(8) uninstall's `setx` PATH-write spawn — the handler fails. -/
theorem nonzero_exit_stops_handler (env : Env) :
    (∀ code out, code ≠ 0 →
      env.spawnOutcome (updateDotExe env) ["--createShortcut", lastComponent env.execPath]
        = .exited code out →
      handleSquirrelEvent env "--squirrel-install" =
        some (.error (.commandFailed out),
          [.spawned (updateDotExe env) ["--createShortcut", lastComponent env.execPath]])) ∧
    (∀ code out, code ≠ 0 → env.homedir ≠ "" → env.desktopShortcutExists = true →
      env.spawnOutcome (updateDotExe env) ["--createShortcut", lastComponent env.execPath]
        = .exited code out →
      handleUpdated env = (.error (.commandFailed out),
        [ .checkedExists (desktopShortcutPath env),
          .spawned (updateDotExe env) ["--createShortcut", lastComponent env.execPath] ])) ∧
    (∀ code out, code ≠ 0 → env.homedir = "" →
      env.spawnOutcome (updateDotExe env) ["--createShortcut", lastComponent env.execPath]
        = .exited code out →
      handleUpdated env = (.error (.commandFailed out),
        [.spawned (updateDotExe env) ["--createShortcut", lastComponent env.execPath]])) ∧
    (∀ code out, code ≠ 0 → (updateShortcut env).1 = .ok () →
      env.ensureDirResult = none → env.writeFileResult = none →
      env.spawnOutcome (powershellPath env) psArgs = .exited code out →
      handleUpdated env = (.error (.commandFailed out),
        (updateShortcut env).2 ++
          [ .ensuredDir (getBinPath env),
            .wroteFile (joinP (getBinPath env) "github.bat") (trampolineContent env),
            .spawned (powershellPath env) psArgs ])) ∧
    (∀ stdout code out, code ≠ 0 → (updateShortcut env).1 = .ok () →
      env.ensureDirResult = none → env.writeFileResult = none →
      env.spawnOutcome (powershellPath env) psArgs = .exited 0 stdout →
      getBinPath env ∉ parsePathOutput stdout →
      env.spawnOutcome (setxPath env)
          ["Path", joinPathSegments (parsePathOutput stdout ++ [getBinPath env])]
        = .exited code out →
      handleUpdated env = (.error (.commandFailed out),
        (updateShortcut env).2 ++
          [ .ensuredDir (getBinPath env),
            .wroteFile (joinP (getBinPath env) "github.bat") (trampolineContent env),
            .spawned (powershellPath env) psArgs,
            .spawned (setxPath env)
              ["Path", joinPathSegments (parsePathOutput stdout ++ [getBinPath env])] ])) ∧
    (∀ code out, code ≠ 0 →
      env.spawnOutcome (updateDotExe env) ["--removeShortcut", lastComponent env.execPath]
        = .exited code out →
      handleUninstall env = (.error (.commandFailed out),
        [.spawned (updateDotExe env) ["--removeShortcut", lastComponent env.execPath]])) ∧
    (∀ code out out1, code ≠ 0 →
      env.spawnOutcome (updateDotExe env) ["--removeShortcut", lastComponent env.execPath]
        = .exited 0 out1 →
      env.spawnOutcome (powershellPath env) psArgs = .exited code out →
      handleUninstall env = (.error (.commandFailed out),
        [ .spawned (updateDotExe env) ["--removeShortcut", lastComponent env.execPath],
          .spawned (powershellPath env) psArgs ])) ∧
    (∀ stdout code out out1, code ≠ 0 →
      env.spawnOutcome (updateDotExe env) ["--removeShortcut", lastComponent env.execPath]
        = .exited 0 out1 →
      env.spawnOutcome (powershellPath env) psArgs = .exited 0 stdout →
      env.spawnOutcome (setxPath env)
          ["Path",
           joinPathSegments (uninstallPathTransform (getBinPath env) (parsePathOutput stdout))]
        = .exited code out →
      handleUninstall env = (.error (.commandFailed out),
        [ .spawned (updateDotExe env) ["--removeShortcut", lastComponent env.execPath],
          .spawned (powershellPath env) psArgs,
          .spawned (setxPath env)
            ["Path",
             joinPathSegments
               (uninstallPathTransform (getBinPath env) (parsePathOutput stdout))] ])) := by
  refine ⟨?_, ?_, ?_, ?_, ?_, ?_, ?_, ?_⟩
  · intro code out hc hsp
    have hdisp : handleSquirrelEvent env "--squirrel-install" = some (createShortcut env) := rfl
    rw [hdisp]
    unfold createShortcut spawnSquirrelUpdate spawn
    rw [hsp]
    simp [hc]
  · intro code out hc hh hsc hsp
    unfold handleUpdated updateShortcut createShortcut spawnSquirrelUpdate spawn
    rw [hsp, if_pos hh, hsc]
    simp [hc]
  · intro code out hc hh hsp
    unfold handleUpdated updateShortcut createShortcut spawnSquirrelUpdate spawn
    rw [hsp, if_neg (by simp [hh])]
    simp [hc]
  · intro code out hc h1 hed hwf hps
    have hu : updateShortcut env = (Except.ok (), (updateShortcut env).2) := by
      rw [← h1]
    unfold handleUpdated writeCLITrampoline getPathSegments spawn
    rw [hu, hed, hwf, hps]
    simp [hc]
  · intro stdout code out hc h1 hed hwf hps hmem hsx
    have hu : updateShortcut env = (Except.ok (), (updateShortcut env).2) := by
      rw [← h1]
    unfold handleUpdated writeCLITrampoline getPathSegments setPathSegments spawn
    rw [hu, hed, hwf, hps]
    simp [hmem, hsx, hc]
  · intro code out hc hsp
    unfold handleUninstall removeShortcut spawnSquirrelUpdate spawn
    rw [hsp]
    simp [hc]
  · intro code out out1 hc hrm hps
    unfold handleUninstall removeShortcut spawnSquirrelUpdate getPathSegments spawn
    rw [hrm, hps]
    simp [hc]
  · intro stdout code out out1 hc hrm hps hsx
    unfold handleUninstall removeShortcut spawnSquirrelUpdate getPathSegments setPathSegments spawn
    rw [hrm, hps]
    simp [hsx, hc]

/-- C8 (witness): in `envFail2` the updated handler fails at its first
spawned command (the shortcut refresh) before any trampoline or PATH work;
in `envFail` the uninstall handler fails at the shortcut removal with the
whole trace being that single spawn; in `envSetxFail` the uninstall
handler fails at the final `setx` PATH write. -/
theorem nonzero_exit_stops_handler_witness :
    handleUpdated envFail2 = (.error (.commandFailed "boom"),
      [ .checkedExists (desktopShortcutPath envFail2),
        .spawned (updateDotExe envFail2) ["--createShortcut", lastComponent envFail2.execPath] ]) ∧
    handleUninstall envFail = (.error (.commandFailed "boom"),
      [.spawned (updateDotExe envFail) ["--removeShortcut", lastComponent envFail.execPath]]) ∧
    handleUninstall envSetxFail = (.error (.commandFailed "boom"),
      [ .spawned (updateDotExe envSetxFail) ["--removeShortcut", lastComponent envSetxFail.execPath],
        .spawned (powershellPath envSetxFail) psArgs,
        .spawned (setxPath envSetxFail)
          ["Path",
           joinPathSegments
             (uninstallPathTransform (getBinPath envSetxFail)
               (parsePathOutput "C:\\A;C:\\bin;C:\\B"))] ]) :=
  ⟨(nonzero_exit_stops_handler envFail2).2.1 1 "boom" (by decide) (by decide) rfl rfl,
   (nonzero_exit_stops_handler envFail).2.2.2.2.2.1 1 "boom" (by decide) rfl,
   (nonzero_exit_stops_handler envSetxFail).2.2.2.2.2.2.2 "C:\\A;C:\\bin;C:\\B" 1 "boom" ""
     (by decide) (by decide) (by decide) (by decide)⟩

/-- C9: the install handler only creates the desktop shortcut: its trace is
the single `Update.exe --createShortcut` spawn, which is neither a
directory creation, a file write, the PATH-reading powershell invocation,
nor a PATH-writing `setx` invocation. -/
theorem install_only_creates_shortcut (env : Env) :
    handleSquirrelEvent env "--squirrel-install" = some (createShortcut env) ∧
    (createShortcut env).2 =
      [.spawned (updateDotExe env) ["--createShortcut", lastComponent env.execPath]] ∧
    (∀ e ∈ (createShortcut env).2,
      (∀ p, e ≠ .ensuredDir p) ∧ (∀ p c, e ≠ .wroteFile p c) ∧
      e ≠ .spawned (powershellPath env) psArgs ∧
      (∀ paths, e ≠ .spawned (setxPath env) ["Path", joinPathSegments paths])) := by
  refine ⟨rfl, createShortcut_trace env, ?_⟩
  intro e he
  rw [createShortcut_trace env] at he
  simp only [List.mem_singleton] at he
  subst he
  refine ⟨by simp, by simp, ?_, ?_⟩
  · intro h
    simp [psArgs] at h
  · intro paths h
    simp at h

/-- C9 (witness): instantiation in `envOk` at the single trace element. -/
theorem install_only_creates_shortcut_witness :
    handleSquirrelEvent envOk "--squirrel-install" = some (createShortcut envOk) ∧
    Effect.spawned (updateDotExe envOk) ["--createShortcut", lastComponent envOk.execPath] ≠
      .spawned (powershellPath envOk) psArgs :=
  ⟨(install_only_creates_shortcut envOk).1,
   ((install_only_creates_shortcut envOk).2.2 _
     (by rw [createShortcut_trace envOk]; simp)).2.2.1⟩

/-- C10: round trip of the PATH writer's join and the reader's parse: for
segments that are non-empty, semicolon-free and have no surrounding
whitespace, parsing the semicolon-joined string returns exactly the
original segments. -/
theorem path_write_read_round_trip (paths : List String)
    (hwf : ∀ p ∈ paths, p ≠ "" ∧ (';' ∉ p.toList) ∧
      (p.toList.head?.all fun c => ! c.isWhitespace) = true ∧
      (p.toList.getLast?.all fun c => ! c.isWhitespace) = true) :
    parsePathOutput (joinPathSegments paths) = paths := by
  cases paths with
  | nil => decide
  | cons p ps =>
      unfold parsePathOutput joinPathSegments
      have htl : (String.mk (List.intercalate [';'] ((p :: ps).map String.toList))).toList
          = List.intercalate [';'] ((p :: ps).map String.toList) := rfl
      rw [htl]
      have hne : ∀ l ∈ (p :: ps).map String.toList, l ≠ [] := by
        intro l hl
        obtain ⟨q, hq, rfl⟩ := List.mem_map.mp hl
        intro hnil
        have hq0 : q = "" := by
          have := congrArg String.mk hnil
          rwa [mk_toList] at this
        exact (hwf q hq).1 hq0
      have hmapcons : (p :: ps).map String.toList = p.toList :: ps.map String.toList := rfl
      have htrim : trimChars (List.intercalate [';'] ((p :: ps).map String.toList))
          = List.intercalate [';'] ((p :: ps).map String.toList) := by
        apply trimChars_eq_self
        · intro c hc
          rw [hmapcons, head?_intercalate p.toList (ps.map String.toList)
            (hne p.toList (by simp))] at hc
          have := (hwf p (by simp)).2.2.1
          rw [hc] at this
          simpa using this
        · intro c hc
          rw [hmapcons] at hc
          obtain ⟨t, htmem, ht⟩ := getLast?_intercalate_mem p.toList (ps.map String.toList)
            (by rw [← hmapcons]; exact hne)
          rw [ht] at hc
          obtain ⟨q, hq, rfl⟩ := List.mem_map.mp (hmapcons ▸ htmem)
          have := (hwf q hq).2.2.2
          rw [hc] at this
          simpa using this
      rw [htrim]
      rw [List.splitOn_intercalate ((p :: ps).map String.toList) ';'
        (fun l hl => by
          obtain ⟨q, hq, rfl⟩ := List.mem_map.mp hl
          exact (hwf q hq).2.1)
        (by simp)]
      rw [List.map_map]
      have hid : ((fun cs => String.mk cs) ∘ String.toList) = (id : String → String) :=
        funext fun q => rfl
      rw [hid, List.map_id]
      exact List.filter_eq_self.mpr fun a ha => decide_eq_true ((hwf a ha).1)

/-- C10 (witness): round trip of the segments `["C:\A", "C:\bin"]`. -/
theorem path_write_read_round_trip_witness :
    parsePathOutput (joinPathSegments ["C:\\A", "C:\\bin"]) = ["C:\\A", "C:\\bin"] :=
  path_write_read_round_trip ["C:\\A", "C:\\bin"] (by decide)

end SquirrelUpdater
